import Mathlib

/-!
Shallow embedding of the dormitory finance backend (`main.py`, `schemas.py`).

Modelling conventions:
* Python `datetime` values are abstract totally ordered timestamps (`Nat`);
  `datetime.min` is the least element `0`.  Python `datetime` objects are
  always truthy, so the `or`-coalescing in the sort key is exact
  `Option`-coalescing on well-shaped documents.
* Python `float` amounts are modelled as `ℚ`; the claims under study are
  about the algebraic structure of the aggregation, not float rounding.
* A JSON-ish value is a `JVal`; a constructor stands for the class of raw
  values that the validation layer accepts for the corresponding type
  (`jdt t` is any payload that validates as a datetime, `jnum q` any
  payload that validates as a number, and so on).
* The FastAPI request pipeline validates all declared parameters (body,
  query, headers) and returns a `ValidationError` (HTTP 422) response
  *before* the route handler body runs; the handlers' own code starts
  with the admin check.  The endpoint models below compose the two in
  that order.
-/

namespace DormFinance

/-- Abstract model of Python `datetime` values: totally ordered timestamps. -/
abbrev DateTime := Nat

/-- Model of `datetime.min`, the minimum representable date-time. -/
def datetimeMin : DateTime := 0

/-- A JSON-ish raw value, tagged by which validations it passes. -/
inductive JVal where
  | jstr (s : String)
  | jnum (q : ℚ)
  | jdt (t : DateTime)
  | jnull
  | joid (s : String)
deriving Repr, DecidableEq

/-- A stored transaction document as returned by the store: every field may
be absent, matching documents inserted outside the validated path. -/
structure StoredDoc where
  oid : Option String := none
  tanggal : Option DateTime := none
  penghuni : Option String := none
  kamar : Option String := none
  keterangan : Option String := none
  jumlah : Option ℚ := none
  tipe : Option String := none
  created_at : Option DateTime := none
  updated_at : Option DateTime := none
deriving Repr, DecidableEq

/-- `is_admin` from `main.py`: `bool(admin_token) and token == admin_token`.
`os.getenv` yields `none` when `ADMIN_TOKEN` is unset; `bool` is `false`
exactly on `None` and the empty string. -/
def is_admin (adminTokenEnv token : Option String) : Bool :=
  (match adminTokenEnv with
   | none => false
   | some s => s != "") && token == adminTokenEnv

/-- Response of `GET /api/stats`. -/
structure StatsOut where
  pemasukan : ℚ
  pengeluaran : ℚ
  saldo : ℚ
deriving Repr, DecidableEq

/-- `d.get("jumlah", 0)`: the stored amount, defaulting to `0` when absent. -/
def jumlahOrZero (d : StoredDoc) : ℚ := d.jumlah.getD 0

/-- The `stats` handler of `GET /api/stats`: sum `jumlah` over each `tipe`
class of the unfiltered record set, and report the difference as `saldo`. -/
def stats (docs : List StoredDoc) : StatsOut :=
  let pemasukan := ((docs.filter fun d => d.tipe == some "pemasukan").map jumlahOrZero).sum
  let pengeluaran := ((docs.filter fun d => d.tipe == some "pengeluaran").map jumlahOrZero).sum
  { pemasukan := pemasukan, pengeluaran := pengeluaran, saldo := pemasukan - pengeluaran }

/-- The `sort_key` closure of `list_transactions`:
`d.get("tanggal") or d.get("created_at") or datetime.min`
(datetimes are always truthy, so `or` coalesces on presence). -/
def sort_key (d : StoredDoc) : DateTime :=
  (d.tanggal.or d.created_at).getD datetimeMin

/-- The comparison realising `sorted(docs, key=sort_key, reverse=True)`:
`a` may precede `b` when `a`'s key is at least `b`'s. -/
def descLe (a b : StoredDoc) : Bool := sort_key b ≤ sort_key a

/-- The sorting step of `GET /api/transactions`: a stable sort of the store's
result set, descending by `sort_key`. -/
def list_transactions (docs : List StoredDoc) : List StoredDoc :=
  docs.mergeSort descLe

/-- Query-parameter validation of `GET /api/transactions`:
`limit: int = Query(100, ge=1, le=500)` and
`tipe: Optional[str] = Query(None, pattern="^(pemasukan|pengeluaran)$")`.
`none` is a `ValidationError` (HTTP 422) response, `some` the accepted
`(limit, tipe)` pair. -/
def parseListQuery (limit : Option Int) (tipe : Option String) : Option (Int × Option String) :=
  if 1 ≤ limit.getD 100 ∧ limit.getD 100 ≤ 500 then
    match tipe with
    | none => some (limit.getD 100, none)
    | some s =>
        if s = "pemasukan" ∨ s = "pengeluaran" then some (limit.getD 100, some s)
        else none
  else none

/-- A raw document as a Python dict: an association list of fields. -/
abbrev Dict := List (String × JVal)

/-- `d.get(k)`: first binding of `k`, if any. -/
def dget (d : Dict) (k : String) : Option JVal :=
  (d.find? fun p => p.1 == k).map Prod.snd

/-- `d[k] = v`: replace the binding of `k` in place, or append a fresh one. -/
def dset (d : Dict) (k : String) (v : JVal) : Dict :=
  if (d.find? fun p => p.1 == k).isSome then
    d.map fun p => if p.1 == k then (k, v) else p
  else d ++ [(k, v)]

/-- `d.pop(k, None)`: drop the binding of `k`. -/
def dpop (d : Dict) (k : String) : Dict :=
  d.filter fun p => p.1 != k

/-- Python `str(...)` applied to the result of `d.get("_id")`: `None`
renders as `"None"`, an ObjectId as its hex string; renderings of the
other value classes are abstract but deterministic. -/
def pyStrId : Option JVal → String
  | none => "None"
  | some (JVal.joid s) => s
  | some (JVal.jstr s) => s
  | some (JVal.jnum q) => toString q
  | some (JVal.jdt t) => toString t
  | some JVal.jnull => "None"

/-- The per-document normalisation step of `list_transactions`:
`d["id"] = str(d.get("_id")); d.pop("_id", None)`. -/
def normalizeDoc (d : Dict) : Dict :=
  dpop (dset d "id" (JVal.jstr (pyStrId (dget d "_id")))) "_id"

/-- The output-shaping loop of `GET /api/transactions`, applied to the
(sorted) result set: each document is normalised in turn. -/
def listItems (docs : List Dict) : List Dict :=
  docs.map normalizeDoc

/-- A request body accepted by `TransactionIn` (and by `schemas.Transaction`,
which declares the identical fields and constraints). -/
structure TransactionIn where
  tanggal : DateTime
  penghuni : Option String
  kamar : Option String
  keterangan : String
  jumlah : ℚ
  tipe : String
deriving Repr, DecidableEq

/-- The raw JSON body of a create request: each declared field is present
with some raw value, or absent. -/
structure RawBody where
  tanggal : Option JVal := none
  penghuni : Option JVal := none
  kamar : Option JVal := none
  keterangan : Option JVal := none
  jumlah : Option JVal := none
  tipe : Option JVal := none
deriving Repr, DecidableEq

/-- Validation of a required `datetime` field: the payload must validate as
a date-time. -/
def parseDatetimeField : Option JVal → Option DateTime
  | some (JVal.jdt t) => some t
  | _ => none

/-- Validation of a required `str` field. -/
def parseStrField : Option JVal → Option String
  | some (JVal.jstr s) => some s
  | _ => none

/-- Validation of an `Optional[str]` field: absent or `null` is accepted as
`None`. -/
def parseOptStrField : Option JVal → Option (Option String)
  | none => some none
  | some JVal.jnull => some none
  | some (JVal.jstr s) => some (some s)
  | _ => none

/-- Validation of the required `float` field `jumlah` (the `ge=0` bound is
checked separately, as the constraint on the parsed number). -/
def parseNumField : Option JVal → Option ℚ
  | some (JVal.jnum q) => some q
  | _ => none

/-- Validation of `tipe: Literal["pemasukan", "pengeluaran"]`. -/
def parseTipe : Option JVal → Option String
  | some (JVal.jstr s) =>
      if s = "pemasukan" ∨ s = "pengeluaran" then some s else none
  | _ => none

/-- Pydantic validation of a `TransactionIn` body: every required field
present and well-typed, `jumlah ≥ 0`, `tipe` one of the two literals.
`none` is a `ValidationError` (HTTP 422) response. -/
def parseTransactionIn (r : RawBody) : Option TransactionIn :=
  (parseDatetimeField r.tanggal).bind fun t =>
  (parseOptStrField r.penghuni).bind fun p =>
  (parseOptStrField r.kamar).bind fun k =>
  (parseStrField r.keterangan).bind fun ket =>
  (parseNumField r.jumlah).bind fun j =>
  if j < 0 then none
  else (parseTipe r.tipe).bind fun tp =>
    some { tanggal := t, penghuni := p, kamar := k, keterangan := ket,
           jumlah := j, tipe := tp }

/-- Outcome of a `POST /api/transactions` request. -/
inductive CreateResult where
  | validationError
  | forbidden
  | created (tx : TransactionIn)
deriving Repr, DecidableEq

/-- The record a create request persisted, if any: only a `created`
outcome reaches `create_document`. -/
def persistedRecord : CreateResult → Option TransactionIn
  | .created tx => some tx
  | _ => none

/-- Whether a create request succeeded. -/
def CreateResult.isCreated : CreateResult → Bool
  | .created _ => true
  | _ => false

/-- The full `POST /api/transactions` pipeline: the framework validates the
body before the handler body runs; the handler then checks `is_admin`,
re-validates via `schemas.Transaction` (the same constraints, so a no-op on
an already-validated body) and persists. -/
def create_transaction (adminTokenEnv header : Option String) (raw : RawBody) :
    CreateResult :=
  match parseTransactionIn raw with
  | none => .validationError
  | some tx => if is_admin adminTokenEnv header then .created tx else .forbidden

/-- Outcome of a `DELETE /api/transactions/{tx_id}` request. -/
inductive DeleteResult where
  | deleted
  | forbidden
  | notFound
  | storeUnavailable
  | invalidIdError
deriving Repr, DecidableEq

/-- HTTP status of each delete outcome: the `HTTPException`s raised by the
handler, and 500 for the uncaught `bson.errors.InvalidId`. -/
def deleteStatus : DeleteResult → Nat
  | .deleted => 200
  | .forbidden => 403
  | .notFound => 404
  | .storeUnavailable => 500
  | .invalidIdError => 500

/-- Whether a string is accepted by `bson.ObjectId(...)`: a 24-character
hexadecimal string. -/
def validObjectId (s : String) : Bool :=
  s.length == 24 && s.toList.all fun c =>
    c.isDigit || (Char.ofNat 97 ≤ c && c ≤ Char.ofNat 102) ||
      (Char.ofNat 65 ≤ c && c ≤ Char.ofNat 70)

/-- The record collection, as the list of its documents' id strings. -/
abbrev Store := List String

/-- Modelled from the spec: the Document Store Adapter's
`deleteById(collectionName, identifier) -> deletedCount (0 or 1)` (the
adapter module is not under `src/`); it removes at most one record by
identifier and returns the new collection with the deleted count. -/
def deleteById (store : Store) (id : String) : Store × Nat :=
  if id ∈ store then (store.erase id, 1) else (store, 0)

/-- The `DELETE /api/transactions/{tx_id}` handler: admin check, store
availability check, ObjectId conversion (uncaught failure), then delete
with a 404 on a zero deleted count.  Returns the response together with
the resulting collection. -/
def delete_transaction (adminTokenEnv header : Option String) (dbAvailable : Bool)
    (store : Store) (tx_id : String) : DeleteResult × Store :=
  if ¬ is_admin adminTokenEnv header then (.forbidden, store)
  else if ¬ dbAvailable then (.storeUnavailable, store)
  else if ¬ validObjectId tx_id then (.invalidIdError, store)
  else
    let r := deleteById store tx_id
    if r.2 = 0 then (.notFound, r.1) else (.deleted, r.1)

/-! Helper lemmas (shared). -/

lemma find_filter_of_ne (d : Dict) (k k2 : String) (h : k ≠ k2) :
    (d.filter fun p => p.1 != k2).find? (fun p => p.1 == k)
      = d.find? fun p => p.1 == k := by
  induction d with
  | nil => rfl
  | cons a t ih =>
    by_cases h1 : a.1 = k2
    · have h2 : (a.1 == k) = false := by
        simp only [beq_eq_false_iff_ne]
        exact fun hk => h (hk ▸ h1)
      rw [List.filter_cons]
      simp only [h1, bne_self_eq_false, Bool.false_eq_true, if_false]
      rw [ih, List.find?_cons_of_neg]
      simp [h2]
    · rw [List.filter_cons]
      have h1b : (a.1 != k2) = true := by simp [bne, h1]
      rw [if_pos h1b]
      by_cases h2 : a.1 = k
      · rw [List.find?_cons_of_pos, List.find?_cons_of_pos] <;> simp [h2]
      · rw [List.find?_cons_of_neg, List.find?_cons_of_neg, ih] <;> simp [h2]

lemma dget_dpop_self (d : Dict) (k : String) : dget (dpop d k) k = none := by
  unfold dget dpop
  rw [List.find?_eq_none.mpr]
  · rfl
  · intro x hx
    have hx2 := (List.mem_filter.mp hx).2
    simp only [bne_iff_ne, ne_eq] at hx2
    simp [hx2]

lemma dget_dpop_ne (d : Dict) (k k2 : String) (h : k ≠ k2) :
    dget (dpop d k2) k = dget d k := by
  unfold dget dpop
  rw [find_filter_of_ne d k k2 h]

lemma find_dset (d : Dict) (k : String) (v : JVal) :
    ((dset d k v).find? fun p => p.1 == k) = some (k, v) := by
  unfold dset
  by_cases hm : ((d.find? fun p => p.1 == k).isSome : Prop)
  · rw [if_pos hm]
    induction d with
    | nil => simp at hm
    | cons a t ih =>
      by_cases h1 : a.1 = k
      · simp only [List.map_cons, h1, beq_self_eq_true, if_true]
        rw [List.find?_cons_of_pos]
        simp
      · have h1b : (a.1 == k) = false := by simp [h1]
        simp only [List.map_cons, h1b, Bool.false_eq_true, if_false]
        rw [List.find?_cons_of_neg _ (by simp [h1])]
        apply ih
        rw [List.find?_cons_of_neg _ (by simp [h1])] at hm
        exact hm
  · rw [if_neg hm]
    rw [List.find?_append]
    have hnone : (d.find? fun p => p.1 == k) = none := by
      cases hf : (d.find? fun p => p.1 == k) with
      | none => rfl
      | some a => rw [hf] at hm; simp at hm
    rw [hnone]
    simp

lemma dget_dset_self (d : Dict) (k : String) (v : JVal) :
    dget (dset d k v) k = some v := by
  unfold dget
  rw [find_dset]
  rfl

lemma admin_unset_false (tok : Option String) : is_admin none tok = false := by
  simp [is_admin]

lemma admin_empty_false (tok : Option String) : is_admin (some "") tok = false := by
  simp [is_admin]

lemma create_not_admin (env header : Option String) (raw : RawBody)
    (h : is_admin env header = false) :
    create_transaction env header raw
      = match parseTransactionIn raw with
        | none => CreateResult.validationError
        | some _ => CreateResult.forbidden := by
  unfold create_transaction
  cases parseTransactionIn raw <;> simp [h]

lemma delete_not_admin (env header : Option String) (avail : Bool) (store : Store)
    (id : String) (h : is_admin env header = false) :
    delete_transaction env header avail store id = (DeleteResult.forbidden, store) := by
  unfold delete_transaction
  simp [h]

/-! Theorems for the claims. -/

/-- C1: for every record set returned by the store, the stats endpoint
reports `pemasukan` as the sum of `jumlah` (missing treated as `0`) over the
records with `tipe = "pemasukan"`, `pengeluaran` as the same sum over
`tipe = "pengeluaran"`, and `saldo = pemasukan - pengeluaran`; on the empty
record set all three are `0`. -/
theorem stats_sums_and_saldo (docs : List StoredDoc) :
    (stats docs).pemasukan
      = ((docs.filter fun d => d.tipe == some "pemasukan").map fun d => d.jumlah.getD 0).sum
  ∧ (stats docs).pengeluaran
      = ((docs.filter fun d => d.tipe == some "pengeluaran").map fun d => d.jumlah.getD 0).sum
  ∧ (stats docs).saldo = (stats docs).pemasukan - (stats docs).pengeluaran
  ∧ stats [] = ⟨0, 0, 0⟩ := by
  refine ⟨rfl, rfl, rfl, ?_⟩
  simp [stats]

/-- C4: the list endpoint's result is sorted descending by the sort key
`tanggal`, falling back to `created_at`, then to the minimum date-time:
whenever record `a` appears before record `b`, `sort_key a ≥ sort_key b`. -/
theorem list_transactions_sorted_desc (docs : List StoredDoc) :
    (list_transactions docs).Pairwise fun a b => sort_key b ≤ sort_key a := by
  have htrans : ∀ a b c : StoredDoc,
      descLe a b = true → descLe b c = true → descLe a c = true := by
    intro a b c hab hbc
    simp only [descLe, decide_eq_true_eq] at *
    exact le_trans hbc hab
  have htotal : ∀ a b : StoredDoc, (descLe a b || descLe b a) = true := by
    intro a b
    simp only [descLe, Bool.or_eq_true, decide_eq_true_eq]
    exact le_total (sort_key b) (sort_key a)
  have h := List.sorted_mergeSort htrans htotal docs
  exact h.imp (by intro a b hab; simpa [descLe] using hab)

/-- C7: a `limit` outside `[1, 500]` or a `tipe` other than the two literals
is rejected with a `ValidationError`; `limit` defaults to `100` when
omitted; in particular `limit = 0` is rejected. -/
theorem list_query_validation (limit : Option Int) (tipe : Option String) :
    (∀ l : Int, limit = some l → (l < 1 ∨ 500 < l) → parseListQuery limit tipe = none)
  ∧ (∀ s, tipe = some s → s ≠ "pemasukan" → s ≠ "pengeluaran" →
      parseListQuery limit tipe = none)
  ∧ (∀ r, parseListQuery none tipe = some r → r.1 = 100)
  ∧ parseListQuery (some 0) tipe = none := by
  refine ⟨?_, ?_, ?_, ?_⟩
  · intro l hl hout
    subst hl
    unfold parseListQuery
    rw [if_neg]
    simp only [Option.getD_some]
    omega
  · intro s hs h1 h2
    subst hs
    unfold parseListQuery
    by_cases hc : (1 : Int) ≤ limit.getD 100 ∧ limit.getD 100 ≤ 500
    · rw [if_pos hc]
      simp [h1, h2]
    · rw [if_neg hc]
  · intro r hr
    unfold parseListQuery at hr
    rw [if_pos (by simp)] at hr
    cases tipe with
    | none =>
      cases hr
      rfl
    | some s =>
      have hr2 : (if s = "pemasukan" ∨ s = "pengeluaran"
          then some (((none : Option Int)).getD 100, some s) else none) = some r := hr
      by_cases hlit : s = "pemasukan" ∨ s = "pengeluaran"
      · rw [if_pos hlit] at hr2
        cases hr2
        rfl
      · rw [if_neg hlit] at hr2
        exact Option.noConfusion hr2
  · unfold parseListQuery
    rw [if_neg]
    simp only [Option.getD_some]
    omega

/-- Witness for C7 at concrete inputs. -/
theorem list_query_validation_witness :
    parseListQuery (some 501) (some "pemasukan") = none
  ∧ parseListQuery (some 100) (some "sewa") = none
  ∧ parseListQuery (some 0) (some "pengeluaran") = none :=
  ⟨(list_query_validation (some 501) (some "pemasukan")).1 501 rfl (Or.inr (by decide)),
   (list_query_validation (some 100) (some "sewa")).2.1 "sewa" rfl (by decide) (by decide),
   (list_query_validation (some 0) (some "pengeluaran")).2.2.2⟩

/-- C8: every document produced by the list endpoint's output loop carries a
string `id` field equal to `str` of the source document's internal `_id`,
and the `_id` field itself is gone. -/
theorem list_items_id_rewrite (docs : List Dict) :
    ∀ d ∈ listItems docs, dget d "_id" = none
      ∧ ∃ d0 ∈ docs, dget d "id" = some (JVal.jstr (pyStrId (dget d0 "_id"))) := by
  intro d hd
  rcases List.mem_map.mp hd with ⟨d0, hd0, rfl⟩
  refine ⟨?_, d0, hd0, ?_⟩
  · unfold normalizeDoc
    exact dget_dpop_self _ _
  · unfold normalizeDoc
    rw [dget_dpop_ne _ _ _ (by decide), dget_dset_self]

/-- Witness for C8 at a concrete document. -/
theorem list_items_id_rewrite_witness :
    dget (normalizeDoc [("_id", JVal.joid "abc"), ("jumlah", JVal.jnum 5)]) "_id" = none
  ∧ dget (normalizeDoc [("_id", JVal.joid "abc"), ("jumlah", JVal.jnum 5)]) "id"
      = some (JVal.jstr "abc") := by
  have h := list_items_id_rewrite [[("_id", JVal.joid "abc"), ("jumlah", JVal.jnum 5)]]
    (normalizeDoc [("_id", JVal.joid "abc"), ("jumlah", JVal.jnum 5)])
    (by simp [listItems])
  refine ⟨h.1, ?_⟩
  rcases h.2 with ⟨d0, hd0, heq⟩
  rw [List.mem_singleton] at hd0
  subst hd0
  exact heq

/-- C2 counterexample: with `ADMIN_TOKEN` set and the `X-Admin-Token` header
absent, a create request with a malformed body (missing `tanggal`) is
answered with `ValidationError` (HTTP 422), not `Forbidden` (HTTP 403): the
framework rejects the body before the handler's admin check can run. -/
theorem create_unauth_malformed_not_forbidden :
    is_admin (some "secret") none = false
  ∧ create_transaction (some "secret") none { tanggal := none }
      = CreateResult.validationError
  ∧ CreateResult.validationError ≠ CreateResult.forbidden := by
  refine ⟨by decide, rfl, by decide⟩

/-- C2 (amended): a mutating request without a valid admin token is answered
with `Forbidden` whenever it reaches the handler: every delete request, and
every create request whose body validates; a create request with a
malformed body is instead rejected with `ValidationError` before the auth
check. -/
theorem mutating_requires_admin (env header : Option String)
    (h : is_admin env header = false) :
    (∀ raw tx, parseTransactionIn raw = some tx →
        create_transaction env header raw = CreateResult.forbidden)
  ∧ (∀ raw, parseTransactionIn raw = none →
        create_transaction env header raw = CreateResult.validationError)
  ∧ (∀ avail store id,
        (delete_transaction env header avail store id).1 = DeleteResult.forbidden) := by
  refine ⟨?_, ?_, ?_⟩
  · intro raw tx hp
    unfold create_transaction
    rw [hp]
    simp [h]
  · intro raw hp
    unfold create_transaction
    rw [hp]
  · intro avail store id
    rw [delete_not_admin _ _ _ _ _ h]

/-- Witness for C2's amended theorem at concrete inputs. -/
theorem mutating_requires_admin_witness :
    is_admin (some "secret") (some "wrong") = false
  ∧ (delete_transaction (some "secret") (some "wrong") true ["a"] "x").1
      = DeleteResult.forbidden
  ∧ create_transaction (some "secret") (some "wrong")
      { tanggal := some (JVal.jdt 3), keterangan := some (JVal.jstr "dues"),
        jumlah := some (JVal.jnum 5), tipe := some (JVal.jstr "pemasukan") }
      = CreateResult.forbidden :=
  ⟨by decide,
   (mutating_requires_admin (some "secret") (some "wrong") (by decide)).2.2 true ["a"] "x",
   (mutating_requires_admin (some "secret") (some "wrong") (by decide)).1
     { tanggal := some (JVal.jdt 3), keterangan := some (JVal.jstr "dues"),
       jumlah := some (JVal.jnum 5), tipe := some (JVal.jstr "pemasukan") }
     { tanggal := 3, penghuni := none, kamar := none, keterangan := "dues",
       jumlah := 5, tipe := "pemasukan" }
     (by decide)⟩

/-- C3 counterexample: with `ADMIN_TOKEN` unset, a create request with a
malformed body (negative `jumlah`) is denied with `ValidationError`
(HTTP 422), not `Forbidden` (HTTP 403). -/
theorem unset_token_malformed_not_forbidden :
    is_admin none none = false
  ∧ create_transaction none none
      { tanggal := some (JVal.jdt 0), keterangan := some (JVal.jstr "y"),
        jumlah := some (JVal.jnum (-3)), tipe := some (JVal.jstr "pengeluaran") }
      = CreateResult.validationError
  ∧ CreateResult.validationError ≠ CreateResult.forbidden := by
  refine ⟨by decide, by decide, by decide⟩

/-- C3 (amended): with `ADMIN_TOKEN` unset, `is_admin` is `false` for every
header value, and every delete request and every create request whose body
validates is denied with `Forbidden`; a create request with a malformed
body is denied with `ValidationError` instead (fail-closed either way). -/
theorem unset_token_fail_closed (tok : Option String) :
    is_admin none tok = false
  ∧ (∀ raw tx, parseTransactionIn raw = some tx →
        create_transaction none tok raw = CreateResult.forbidden)
  ∧ (∀ raw, parseTransactionIn raw = none →
        create_transaction none tok raw = CreateResult.validationError)
  ∧ (∀ avail store id,
        (delete_transaction none tok avail store id).1 = DeleteResult.forbidden) := by
  have h := admin_unset_false tok
  refine ⟨h, ?_, ?_, ?_⟩
  · intro raw tx hp
    unfold create_transaction
    rw [hp]
    simp [h]
  · intro raw hp
    unfold create_transaction
    rw [hp]
  · intro avail store id
    rw [delete_not_admin _ _ _ _ _ h]

/-- Witness for C3's amended theorem at concrete inputs. -/
theorem unset_token_fail_closed_witness :
    is_admin none (some "anything") = false
  ∧ (delete_transaction none (some "anything") true ["a"] "x").1
      = DeleteResult.forbidden
  ∧ create_transaction none (some "anything")
      { tanggal := some (JVal.jdt 1), keterangan := some (JVal.jstr "k"),
        jumlah := some (JVal.jnum 2), tipe := some (JVal.jstr "pengeluaran") }
      = CreateResult.forbidden :=
  ⟨(unset_token_fail_closed (some "anything")).1,
   (unset_token_fail_closed (some "anything")).2.2.2 true ["a"] "x",
   (unset_token_fail_closed (some "anything")).2.1
     { tanggal := some (JVal.jdt 1), keterangan := some (JVal.jstr "k"),
       jumlah := some (JVal.jnum 2), tipe := some (JVal.jstr "pengeluaran") }
     { tanggal := 1, penghuni := none, kamar := none, keterangan := "k",
       jumlah := 2, tipe := "pengeluaran" }
     (by decide)⟩

/-- C9: with `ADMIN_TOKEN` set to the empty string, `is_admin` is `false`
for every header value (the empty header included), every delete request is
denied with `Forbidden`, and no create request ever persists a record: the
fail-closed behaviour covers an empty secret as well as an absent one. -/
theorem empty_token_fail_closed (tok : Option String) :
    is_admin (some "") tok = false
  ∧ (∀ header avail store id,
        (delete_transaction (some "") header avail store id).1 = DeleteResult.forbidden)
  ∧ (∀ header raw,
        (create_transaction (some "") header raw).isCreated = false) := by
  refine ⟨admin_empty_false tok, ?_, ?_⟩
  · intro header avail store id
    rw [delete_not_admin _ _ _ _ _ (admin_empty_false header)]
  · intro header raw
    unfold create_transaction
    cases parseTransactionIn raw with
    | none => rfl
    | some tx => simp [admin_empty_false header, CreateResult.isCreated]

/-- C5: with a valid admin token, a create body with a negative `jumlah`, a
`tipe` outside the two literals, or a missing or ill-typed required field is
rejected with `ValidationError` and nothing is persisted; every body that
passes validation satisfies `jumlah ≥ 0`. -/
theorem create_validation (env header : Option String)
    (_hadmin : is_admin env header = true) :
    (∀ raw : RawBody, ∀ j : ℚ, parseNumField raw.jumlah = some j → j < 0 →
        create_transaction env header raw = CreateResult.validationError
        ∧ persistedRecord (create_transaction env header raw) = none)
  ∧ (∀ raw : RawBody, parseTipe raw.tipe = none →
        create_transaction env header raw = CreateResult.validationError
        ∧ persistedRecord (create_transaction env header raw) = none)
  ∧ (∀ raw : RawBody,
        parseDatetimeField raw.tanggal = none ∨ parseStrField raw.keterangan = none
          ∨ parseNumField raw.jumlah = none →
        create_transaction env header raw = CreateResult.validationError
        ∧ persistedRecord (create_transaction env header raw) = none)
  ∧ (∀ raw tx, parseTransactionIn raw = some tx → 0 ≤ tx.jumlah) := by
  have key : ∀ raw : RawBody, parseTransactionIn raw = none →
      create_transaction env header raw = CreateResult.validationError
      ∧ persistedRecord (create_transaction env header raw) = none := by
    intro raw hp
    unfold create_transaction
    rw [hp]
    exact ⟨rfl, rfl⟩
  refine ⟨?_, ?_, ?_, ?_⟩
  · intro raw j hj hneg
    apply key
    cases hT : parseDatetimeField raw.tanggal <;>
      cases hP : parseOptStrField raw.penghuni <;>
        cases hK : parseOptStrField raw.kamar <;>
          cases hKet : parseStrField raw.keterangan <;>
            simp [parseTransactionIn, hT, hP, hK, hKet, hj, hneg]
  · intro raw htipe
    apply key
    cases hT : parseDatetimeField raw.tanggal <;>
      cases hP : parseOptStrField raw.penghuni <;>
        cases hK : parseOptStrField raw.kamar <;>
          cases hKet : parseStrField raw.keterangan <;>
            cases hJ : parseNumField raw.jumlah <;>
              simp [parseTransactionIn, hT, hP, hK, hKet, hJ, htipe]
  · intro raw hmiss
    apply key
    rcases hmiss with h | h | h
    · simp [parseTransactionIn, h]
    · cases hT : parseDatetimeField raw.tanggal <;>
        cases hP : parseOptStrField raw.penghuni <;>
          cases hK : parseOptStrField raw.kamar <;>
            simp [parseTransactionIn, hT, hP, hK, h]
    · cases hT : parseDatetimeField raw.tanggal <;>
        cases hP : parseOptStrField raw.penghuni <;>
          cases hK : parseOptStrField raw.kamar <;>
            cases hKet : parseStrField raw.keterangan <;>
              simp [parseTransactionIn, hT, hP, hK, hKet, h]
  · intro raw tx h
    unfold parseTransactionIn at h
    rw [Option.bind_eq_some] at h
    obtain ⟨t, ht, h⟩ := h
    rw [Option.bind_eq_some] at h
    obtain ⟨p, hp, h⟩ := h
    rw [Option.bind_eq_some] at h
    obtain ⟨k, hk, h⟩ := h
    rw [Option.bind_eq_some] at h
    obtain ⟨ket, hket, h⟩ := h
    rw [Option.bind_eq_some] at h
    obtain ⟨j, hj, h⟩ := h
    by_cases hneg : j < 0
    · rw [if_pos hneg] at h
      exact Option.noConfusion h
    · rw [if_neg hneg] at h
      rw [Option.bind_eq_some] at h
      obtain ⟨tp, htp, h⟩ := h
      cases h
      exact le_of_not_lt hneg

/-- Witness for C5 at a concrete admin token and a negative-amount body. -/
theorem create_validation_witness :
    is_admin (some "tok") (some "tok") = true
  ∧ create_transaction (some "tok") (some "tok")
      { tanggal := some (JVal.jdt 0), keterangan := some (JVal.jstr "x"),
        jumlah := some (JVal.jnum (-1)), tipe := some (JVal.jstr "pemasukan") }
      = CreateResult.validationError :=
  ⟨by decide,
   ((create_validation (some "tok") (some "tok") (by decide)).1
      { tanggal := some (JVal.jdt 0), keterangan := some (JVal.jstr "x"),
        jumlah := some (JVal.jnum (-1)), tipe := some (JVal.jstr "pemasukan") }
      (-1) rfl (by decide)).1⟩

lemma delete_admin_valid (env header : Option String) (store : Store) (id : String)
    (hadmin : is_admin env header = true) (hvalid : validObjectId id = true) :
    delete_transaction env header true store id
      = if (deleteById store id).2 = 0 then (DeleteResult.notFound, (deleteById store id).1)
        else (DeleteResult.deleted, (deleteById store id).1) := by
  unfold delete_transaction
  rw [if_neg (by simp [hadmin]), if_neg (by simp), if_neg (by simp [hvalid])]

/-- C6: with a valid admin token, an available store, and a parseable id, the
delete endpoint answers `NotFound` exactly when the store's deleted count is
`0`; deleting a present id succeeds and re-deleting the same id on the
resulting collection answers `NotFound`. -/
theorem delete_notfound_iff (env header : Option String) (store : Store) (id : String)
    (hadmin : is_admin env header = true) (hvalid : validObjectId id = true) :
    ((delete_transaction env header true store id).1 = DeleteResult.notFound
        ↔ (deleteById store id).2 = 0)
  ∧ (store.Nodup → id ∈ store →
      (delete_transaction env header true store id).1 = DeleteResult.deleted
      ∧ (delete_transaction env header true
            (delete_transaction env header true store id).2 id).1
          = DeleteResult.notFound) := by
  have hd := delete_admin_valid env header store id hadmin hvalid
  constructor
  · rw [hd]
    by_cases hz : (deleteById store id).2 = 0
    · simp [hz]
    · simp [hz]
  · intro hnd hmem
    have h1 : deleteById store id = (store.erase id, 1) := by
      unfold deleteById
      rw [if_pos hmem]
    constructor
    · rw [hd, h1]
      simp
    · have h2 : (delete_transaction env header true store id).2 = store.erase id := by
        rw [hd, h1]
        simp
      rw [h2, delete_admin_valid env header (store.erase id) id hadmin hvalid]
      have h3 : deleteById (store.erase id) id = (store.erase id, 0) := by
        unfold deleteById
        rw [if_neg hnd.not_mem_erase]
      rw [h3]
      simp

/-- Witness for C6: deleting the only record succeeds; deleting from the
empty collection answers `NotFound`. -/
theorem delete_notfound_iff_witness :
    (delete_transaction (some "t") (some "t") true ["0123456789abcdef01234567"]
        "0123456789abcdef01234567").1 = DeleteResult.deleted
  ∧ (delete_transaction (some "t") (some "t") true [] "0123456789abcdef01234567").1
      = DeleteResult.notFound :=
  ⟨((delete_notfound_iff (some "t") (some "t") ["0123456789abcdef01234567"]
      "0123456789abcdef01234567" (by decide) (by decide)).2 (by decide) (by decide)).1,
   (delete_notfound_iff (some "t") (some "t") [] "0123456789abcdef01234567"
      (by decide) (by decide)).1.mpr (by decide)⟩

/-- C10: with a valid admin token and an available store, a delete request
whose path id is not parseable as an ObjectId yields a server error (500,
the uncaught conversion failure), not `NotFound`, and the collection is
unchanged. -/
theorem delete_invalid_id (env header : Option String) (store : Store) (id : String)
    (hadmin : is_admin env header = true) (hvalid : validObjectId id = false) :
    (delete_transaction env header true store id).1 = DeleteResult.invalidIdError
  ∧ (delete_transaction env header true store id).2 = store
  ∧ deleteStatus (delete_transaction env header true store id).1 = 500
  ∧ (delete_transaction env header true store id).1 ≠ DeleteResult.notFound := by
  have h : delete_transaction env header true store id
      = (DeleteResult.invalidIdError, store) := by
    unfold delete_transaction
    rw [if_neg (by simp [hadmin]), if_neg (by simp), if_pos (by simp [hvalid])]
  rw [h]
  exact ⟨rfl, rfl, rfl, by simp⟩

/-- Witness for C10 at a concrete malformed id. -/
theorem delete_invalid_id_witness :
    (delete_transaction (some "t") (some "t") true ["0123456789abcdef01234567"] "nope").1
      = DeleteResult.invalidIdError
  ∧ (delete_transaction (some "t") (some "t") true ["0123456789abcdef01234567"] "nope").2
      = ["0123456789abcdef01234567"] :=
  ⟨(delete_invalid_id (some "t") (some "t") ["0123456789abcdef01234567"] "nope"
      (by decide) (by decide)).1,
   (delete_invalid_id (some "t") (some "t") ["0123456789abcdef01234567"] "nope"
      (by decide) (by decide)).2.1⟩

end DormFinance
